import Mathlib

/-!
Shallow embedding of the BTW-daemon decision core (src/main.rs, src/search.rs,
src/net.rs, src/ui.rs).  Pure data flow is translated directly; external
collaborators (LLM provider, Tavily web search, microphone frames, wall clock)
appear as explicit function or value parameters.  Machine floats of the source
(`f32`/`f64` scores, durations) are modelled as rationals; the one analog
computation that cannot be carried over exactly (the `f64` square-root RMS of a
frame, compared against the configured silence threshold) is modelled by the
Boolean outcome of that comparison, supplied with the frame input.
Side-effecting calls are modelled as an emitted list of `Effect` values.
-/

/-- Unicode white-space test matching the White_Space property used by the
Rust `char::is_whitespace` call in `normalize_short` (src/main.rs line 30). -/
def rustIsWhitespace (c : Char) : Bool :=
  c.toNat = 9 || c.toNat = 10 || c.toNat = 11 || c.toNat = 12 || c.toNat = 13 ||
  c.toNat = 32 || c.toNat = 133 || c.toNat = 160 || c.toNat = 5760 ||
  (8192 ≤ c.toNat && c.toNat ≤ 8202) || c.toNat = 8232 || c.toNat = 8233 ||
  c.toNat = 8239 || c.toNat = 8287 || c.toNat = 12288

/-- Splitting of a character list into maximal runs of non-whitespace
characters, mirroring `str::split_whitespace` followed by `collect` in
`normalize_short` (src/main.rs line 34).  `acc` holds the current word in
reverse order. -/
def splitWsAux : List Char → List Char → List String
  | [], acc => if acc.isEmpty then [] else [String.mk acc.reverse]
  | c :: rest, acc =>
    if rustIsWhitespace c then
      if acc.isEmpty then splitWsAux rest []
      else String.mk acc.reverse :: splitWsAux rest []
    else splitWsAux rest (c :: acc)

/-- Embedding of `normalize_short` (src/main.rs lines 27-35): keep only ASCII
alphanumeric and whitespace characters, ASCII-lowercase them, then collapse
whitespace runs to single spaces. -/
def normalize_short (s : String) : String :=
  let out := s.data.filterMap fun ch =>
    if ch.isAlphanum || rustIsWhitespace ch then some ch.toLower else none
  String.intercalate " " (splitWsAux out [])

/-- Embedding of the Rust `str::trim` (drop Unicode whitespace from both
ends), written over the character list so that it evaluates by kernel
reduction. -/
def rustTrim (s : String) : String :=
  String.mk
    (((s.data.dropWhile fun c => rustIsWhitespace c).reverse.dropWhile
      fun c => rustIsWhitespace c).reverse)

/-- Embedding of `IntentResult` (the routed intent produced by the intent
classifier collaborator; the `intent` module is not under src/, the shape is
taken from its uses in src/main.rs and the data model of the spec). -/
structure IntentResult where
  command_id : Option String
  parameters : List (String × String)
  deterministic_score : Option ℚ
  dangerous : Bool
  requires_confirmation : Bool
  deriving DecidableEq, Repr

/-- Speech-output configuration; only its `enabled` flag is read by the core
(src/main.rs line 118, src/search.rs lines 170-172 and 181-182). -/
structure SpeechOutputCfg where
  enabled : Bool
  deriving DecidableEq, Repr

/-- Search configuration fields read by the core (src/main.rs lines 98-106,
src/search.rs lines 93 and 118). -/
structure SearchCfg where
  enabled : Bool
  timeout_ms : Nat
  country : Option String
  deriving DecidableEq, Repr

/-- UI configuration fields read by the core (src/main.rs lines 103-104). -/
structure UiCfg where
  osd : Bool
  osd_timeout_ms : Nat
  deriving DecidableEq, Repr

/-- Intent-gate configuration (src/main.rs line 70). -/
structure IntentCfg where
  deterministic_threshold : ℚ
  deriving DecidableEq, Repr

/-- Execution configuration (src/main.rs lines 230-231). -/
structure ExecutionCfg where
  confirmation_timeout_seconds : ℚ
  dry_run : Bool
  deriving DecidableEq, Repr

/-- Speech / listening configuration fields read by the frame loop
(src/main.rs lines 360, 403, 411-412). -/
structure SpeechCfg where
  vad_mode : Nat
  silence_threshold : ℚ
  silence_duration_ms : ℚ
  max_utterance_seconds : ℚ
  deriving DecidableEq, Repr

/-- Configuration record combining the fields the decision core reads (the
`config` module is not under src/; fields are taken from their uses). -/
structure Config where
  intent : IntentCfg
  search : SearchCfg
  ui : UiCfg
  speech_output : SpeechOutputCfg
  speech : SpeechCfg
  execution : ExecutionCfg
  deriving DecidableEq, Repr

/-- Modelled from the spec: `PendingConfirmation` of the missing `executor`
module — request id, stored intent, creation timestamp and timeout
(spec section 3, data model). -/
structure PendingConfirmation where
  request_id : String
  intent : IntentResult
  created_at : ℚ
  timeout : ℚ
  deriving DecidableEq, Repr

/-- Modelled from the spec: the Executor of the missing `executor` module owns
at most one pending dangerous command, held as an optional value
(spec section 4.3). -/
structure Executor where
  pending : Option PendingConfirmation
  cfg : ExecutionCfg
  deriving DecidableEq, Repr

/-- Observable side effects of the decision core; each constructor records one
collaborator call the source performs. -/
inductive Effect where
  | executeIntent (i : IntentResult)
  | awaitingConfirmation (id : String)
  | canceled (reason : String)
  | expiry
  | dispatchSearch (q : String)
  | llmCall (prompt : String)
  | tavilyCall (q : String)
  | showText (title body : String)
  | showAnswer (title body : String)
  | showAnswerWithBrowser (title body url : String)
  | speak (text : String) (cfg : SpeechOutputCfg)
  deriving DecidableEq, Repr

/-- Embedding of `sanitize_passive_body` (src/ui.rs lines 3-16): drop common
quote-style characters, keep everything else. -/
def sanitize_passive_body (body : String) : String :=
  String.mk (body.data.filter fun ch =>
    !(ch.toNat = 34 || ch.toNat = 39 || ch.toNat = 8220 || ch.toNat = 8221 ||
      ch.toNat = 8216 || ch.toNat = 8217 || ch.toNat = 96))

/-- Embedding of `ui::notify_text` (src/ui.rs lines 33-51): shows the
sanitized body when the UI is enabled, otherwise does nothing. -/
def notify_text (enabled : Bool) (title body : String) : List Effect :=
  if enabled then [Effect.showText title (sanitize_passive_body body)] else []

/-- Embedding of `ui::notify_answer` (src/ui.rs lines 53-73). -/
def notify_answer (enabled : Bool) (title body : String) : List Effect :=
  if enabled then [Effect.showAnswer title (sanitize_passive_body body)] else []

/-- Embedding of `ui::notify_answer_with_open_in_browser`
(src/ui.rs lines 75-136). -/
def notify_answer_with_open_in_browser (enabled : Bool) (title body url : String) :
    List Effect :=
  if enabled then [Effect.showAnswerWithBrowser title (sanitize_passive_body body) url]
  else []

/-- Count of pending confirmations held by an Executor. -/
def pendingCount (e : Executor) : Nat :=
  match e.pending with
  | some _ => 1
  | none => 0

/-- Embedding of `Executor::has_pending` as used in src/main.rs line 50. -/
def Executor.has_pending (e : Executor) : Bool :=
  e.pending.isSome

/-- Modelled from the spec: `route`/`handle_intent` of the missing `executor`
module — a dangerous intent creates a `PendingConfirmation` with a fresh
request id and start timestamp; a non-dangerous intent executes immediately
(spec section 4.3).  The fresh id and the current time are parameters. -/
def Executor.handle_intent (e : Executor) (i : IntentResult) (now : ℚ)
    (freshId : String) : Executor × List Effect :=
  if i.dangerous then
    let p : PendingConfirmation := ⟨freshId, i, now, e.cfg.confirmation_timeout_seconds⟩
    ({ e with pending := some p }, [Effect.awaitingConfirmation freshId])
  else
    (e, [Effect.executeIntent i])

/-- Modelled from the spec: `confirm` of the missing `executor` module —
executes the stored intent and clears the pending state; a no-op when nothing
is pending (spec section 4.3). -/
def Executor.confirm_pending (e : Executor) : Executor × List Effect :=
  match e.pending with
  | some p => ({ e with pending := none }, [Effect.executeIntent p.intent])
  | none => (e, [])

/-- Modelled from the spec: `cancel` of the missing `executor` module —
clears the pending state and never executes (spec section 4.3). -/
def Executor.cancel_pending (e : Executor) (reason : String) :
    Executor × List Effect :=
  match e.pending with
  | some _ => ({ e with pending := none }, [Effect.canceled reason])
  | none => (e, [])

/-- Modelled from the spec: `tick(now)` of the missing `executor` module — if
a `PendingConfirmation` exists and `now - created_at ≥ timeout`, discard the
pending state and emit an expiry signal, with no execution
(spec section 4.3).  Invoked once per frame by the run loop
(src/main.rs line 308). -/
def Executor.handle_tick (e : Executor) (now : ℚ) : Executor × List Effect :=
  match e.pending with
  | some p =>
    if now - p.created_at ≥ p.timeout then
      ({ e with pending := none }, [Effect.expiry])
    else (e, [])
  | none => (e, [])

/-- Modelled from the spec: `handle_confirmation_text` of the missing
`executor` module — an affirmative token confirms, a negative token cancels
(spec sections 4.2 and 4.3).  In src/main.rs it is only reached with `norm`
already matched against the two fixed sets. -/
def Executor.handle_confirmation_text (e : Executor) (norm : String) :
    Executor × List Effect :=
  if norm == "yes" || norm == "confirm" || norm == "do it" then
    e.confirm_pending
  else if norm == "no" || norm == "cancel" || norm == "stop" then
    e.cancel_pending "user canceled"
  else (e, [])

/-- Embedding of the question-routing fallback of `handle_transcript`
(src/main.rs lines 88-120): empty trimmed text is dropped, a search-enabled
question is dispatched to the asynchronous search workflow, otherwise the LLM
provider is asked directly and the answer shown and optionally spoken. -/
def question_route (cfg : Config) (text : String)
    (llmAnswerShort : String → Except String String) : List Effect :=
  let question := rustTrim text
  if question == "" then []
  else if cfg.search.enabled then [Effect.dispatchSearch question]
  else
    let ans := match llmAnswerShort question with
      | .ok a => a
      | .error _ => "I don’t know."
    [Effect.llmCall question] ++ notify_text cfg.ui.osd "Btw" ans ++
      (if cfg.speech_output.enabled then [Effect.speak ans cfg.speech_output] else [])

/-- Embedding of `handle_transcript` (src/main.rs lines 40-121).  The routed
intent (output of the `intent_router.route` collaborator) and the LLM client
are parameters; `now` and `freshId` stand for the wall clock and fresh request
id drawn inside the executor. -/
def handle_transcript (text : String) (cfg : Config) (exec : Executor)
    (routed : IntentResult) (llmAnswerShort : String → Except String String)
    (now : ℚ) (freshId : String) : Executor × List Effect :=
  let norm := normalize_short text
  if exec.has_pending then
    let proceed := norm == "yes" || norm == "confirm" || norm == "do it"
    let cancelTok := norm == "no" || norm == "cancel" || norm == "stop"
    if !proceed && !cancelTok then (exec, [])
    else exec.handle_confirmation_text norm
  else
    let det_score := routed.deterministic_score.getD 0
    let is_valid_allowlisted := routed.command_id.isSome
    let passed_threshold := decide (det_score ≥ cfg.intent.deterministic_threshold)
    if is_valid_allowlisted && passed_threshold then
      if routed.dangerous then
        exec.handle_intent { routed with requires_confirmation := true } now freshId
      else
        exec.handle_intent routed now freshId
    else
      (exec, question_route cfg text llmAnswerShort)

/-- Embedding of `KNOWLEDGE_CHECK_SENTINEL` (src/search.rs lines 5-6). -/
def KNOWLEDGE_CHECK_SENTINEL : String :=
  "I do not have enough up-to-date information to answer this."

/-- Embedding of the knowledge-check prompt built in
`answer_with_llm_if_known` (src/search.rs lines 69-73). -/
def knowledgePrompt (query : String) : String :=
  "You are an AI assistant named Bumblebee, running on arch linux (just like siri for mac).\n\nAnswer the user ONLY IF you are certain the answer is:\n- Not time-sensitive\n- Not dependent on real-time data\n- Not dependent on events after your training cutoff\n- Not dependent on current news, stock prices, sports results, weather, or recent events\n\nIf you can answer confidently from static knowledge, give the answer.\n\nIf you cannot answer confidently, respond with EXACTLY this sentence and nothing else:\n\n\"" ++
    KNOWLEDGE_CHECK_SENTINEL ++ "\"\n\nUser question:\n" ++ query ++
    "\n\nImportant: Never mention knowledge cutoff, training data, or that you are an AI language model."

/-- Embedding of `KnownOrUnknown` (src/search.rs lines 58-61). -/
inductive KnownOrUnknown where
  | Known (answer : String)
  | Unknown
  deriving DecidableEq, Repr

/-- Embedding of `answer_with_llm_if_known` (src/search.rs lines 63-85); the
LLM provider call is the function parameter `llm`, and the call made is
recorded as an `Effect.llmCall`. -/
def answer_with_llm_if_known (query : String)
    (llm : String → Except String String) :
    Except String KnownOrUnknown × List Effect :=
  let prompt := knowledgePrompt query
  match llm prompt with
  | .error e => (.error e, [Effect.llmCall prompt])
  | .ok out =>
    if rustTrim out == KNOWLEDGE_CHECK_SENTINEL then
      (.ok .Unknown, [Effect.llmCall prompt])
    else
      let ans := rustTrim out
      if ans == "" then (.ok .Unknown, [Effect.llmCall prompt])
      else (.ok (.Known ans), [Effect.llmCall prompt])

/-- Embedding of one Tavily result entry (title, url, content), as read from
the response JSON in `tavily_search` (src/search.rs lines 241-254). -/
structure TavilyItem where
  title : String
  url : String
  content : String
  deriving DecidableEq, Repr

/-- Embedding of the per-result chunk building of `tavily_search`
(src/search.rs lines 255-274): trimmed title, then the trimmed url joined
with an em-dash separator, then the trimmed content on a new line; empty
pieces are skipped. -/
def tavilyChunk (r : TavilyItem) : String :=
  let title := rustTrim r.title
  let url := rustTrim r.url
  let content := rustTrim r.content
  let c1 := if title == "" then "" else title
  let c2 := if url == "" then c1 else if c1 == "" then url else c1 ++ " — " ++ url
  if content == "" then c2 else if c2 == "" then content else c2 ++ "\n" ++ content

/-- Embedding of the facts-block flattening of `tavily_search`
(src/search.rs lines 238-285): nonempty chunks joined by blank lines; an
empty result list is an error. -/
def tavilyFactsText (results : List TavilyItem) : Except String String :=
  let lines := (results.map tavilyChunk).filter fun c => !(c == "")
  if lines.isEmpty then .error "tavily returned no results"
  else .ok (String.intercalate "\n\n" lines)

/-- Embedding of `tavily_search` (src/search.rs lines 189-286); the HTTP
round trip (api key, request, status, JSON decode) is the `resp` parameter,
and the provider call is recorded as an `Effect.tavilyCall`. -/
def tavily_search (query : String) (resp : Except String (List TavilyItem)) :
    Except String String × List Effect :=
  (match resp with
   | .error e => .error e
   | .ok rs => tavilyFactsText rs,
   [Effect.tavilyCall query])

/-- Embedding of the compose prompt built in `answer_with_tavily`
(src/search.rs lines 95-99). -/
def composePrompt (query facts : String) : String :=
  "User question:\n" ++ query ++ "\n\nRetrieved web information:\n" ++ facts ++
    "\n\nAnswer the question clearly and concisely using ONLY the information above.\nIf the information is insufficient or contradictory, say \"I don’t know.\"\n\nImportant: Never mention knowledge cutoff, training data, or that you are an AI language model."

/-- Embedding of `answer_with_tavily` (src/search.rs lines 87-102). -/
def answer_with_tavily (query : String) (cfg : SearchCfg)
    (llm : String → Except String String)
    (tavilyResp : Except String (List TavilyItem)) :
    Except String String × List Effect :=
  match tavily_search query tavilyResp with
  | (.error e, effs) => (.error e, effs)
  | (.ok facts, effs) =>
    let prompt := composePrompt query facts
    (llm prompt, effs ++ [Effect.llmCall prompt])

/-- Upper-case hexadecimal digit for `urlencode`. -/
def hexUpper (n : Nat) : Char :=
  if n < 10 then Char.ofNat (48 + n) else Char.ofNat (55 + n)

/-- Percent-encoding of one UTF-8 byte as done by `urlencoding::encode`
(src/search.rs line 156): unreserved bytes are kept, all others become
a percent escape. -/
def urlencodeByte (b : Nat) : List Char :=
  if (48 ≤ b && b ≤ 57) || (65 ≤ b && b ≤ 90) || (97 ≤ b && b ≤ 122) ||
      b = 45 || b = 46 || b = 95 || b = 126 then
    [Char.ofNat b]
  else
    [Char.ofNat 37, hexUpper (b / 16), hexUpper (b % 16)]

/-- Embedding of `urlencoding::encode` over the UTF-8 bytes of the input. -/
def urlencode (s : String) : String :=
  String.mk ((s.toUTF8.toList.map fun b => b.toNat).flatMap urlencodeByte)

/-- Embedding of the Google query URL built in `search_and_summarize_async`
(src/search.rs lines 154-157). -/
def googleSearchUrl (question : String) : String :=
  "https://www.google.com/search?q=" ++ urlencode question

/-- Embedding of `search_and_summarize_async` (src/search.rs lines 110-187).
The spawned background task is modelled by the effect list it produces; the
connectivity probe `net::has_internet` (a TCP connect, src/net.rs lines 8-11)
is the Boolean parameter `online`, the LLM provider is `llm`, and the Tavily
HTTP round trip is `tavilyResp`.  The notification timeout arithmetic has no
observable effect and is omitted. -/
def search_and_summarize_async (question : String) (search_cfg : SearchCfg)
    (ui_enabled : Bool) (ui_timeout_ms : Nat) (tts : SpeechOutputCfg)
    (llm : String → Except String String)
    (tavilyResp : Except String (List TavilyItem))
    (online : Bool) : List Effect :=
  if !search_cfg.enabled then []
  else if !online then
    if ui_enabled then
      notify_answer ui_enabled "Btw" "No internet connection. Cannot fetch web results."
    else []
  else
    let s1 := answer_with_llm_if_known question llm
    let step2 : (Except String String × String) × List Effect :=
      match s1.1 with
      | .ok (.Known ans) => ((.ok ans, "mistral"), [])
      | .ok .Unknown =>
        let t := answer_with_tavily question search_cfg llm tavilyResp
        ((t.1, "tavily"), t.2)
      | .error e => ((.error e, "tavily"), [])
    let source_label := step2.1.2
    s1.2 ++ step2.2 ++
      (match step2.1.1 with
       | .ok answer =>
         let ui_text := answer ++ "\n\n:source: " ++ source_label
         (if ui_enabled then
            if source_label == "tavily" then
              notify_answer_with_open_in_browser ui_enabled "Btw" ui_text
                (googleSearchUrl question)
            else notify_answer ui_enabled "Btw" ui_text
          else []) ++
          [Effect.speak answer { tts with enabled := true }]
       | .error _ =>
         let msg := "I couldn’t find reliable information."
         (if ui_enabled then
            notify_answer ui_enabled "Btw" (msg ++ "\n\n:source: " ++ source_label)
          else []) ++
          [Effect.speak msg { tts with enabled := true }])

/-- Embedding of the `ListenState` enum (src/main.rs lines 240-245). -/
inductive ListenState where
  | Idle
  | Listening
  | Recording
  deriving DecidableEq, Repr

/-- Mutable loop state of the frame-consumption loop
(src/main.rs lines 247-251). -/
structure LoopState where
  state : ListenState
  samples : List Int
  silence_ms : ℚ
  start_time : Option ℚ
  saw_post_wake_speech : Bool
  deriving DecidableEq, Repr

/-- Per-frame inputs of one loop iteration: the wake-word detector outcome,
the voice-activity classifier outcome, the outcome of the f64 RMS-threshold
comparison `rms >= cfg.speech.silence_threshold` (src/main.rs lines 355 and
360; its square root cannot be carried into an exact embedding, so the
comparison result is the input), the frame samples and the current time. -/
structure FrameInput where
  wake : Bool
  vadSpeech : Bool
  rmsAtLeastThreshold : Bool
  frame : List Int
  now : ℚ
  deriving DecidableEq, Repr

/-- Observable side effects of one frame-loop iteration. -/
inductive ListenEffect where
  | notifyListening
  | asrAttempt (samples : List Int)
  | asrSkipped
  deriving DecidableEq, Repr

/-- Loop state written on every return to Idle
(src/main.rs lines 469-473). -/
def idleReset : LoopState := ⟨ListenState.Idle, [], 0, none, false⟩

/-- Loop state written on every wake-word detection
(src/main.rs lines 325-330 and 343-346). -/
def armedReset : LoopState := ⟨ListenState.Listening, [], 0, none, false⟩

/-- Stop condition of the Recording state (src/main.rs lines 411-412): the
silence accumulator after this frame (reset to zero on a speech frame,
src/main.rs lines 403-407) has reached the configured silence duration, or
the elapsed time since recording start has reached the configured maximum
utterance duration. -/
def recordingEndCond (cfg : SpeechCfg) (frame_ms : ℚ) (st : LoopState)
    (fi : FrameInput) : Prop :=
  (if !fi.vadSpeech && !fi.rmsAtLeastThreshold then st.silence_ms + frame_ms
    else 0) ≥ cfg.silence_duration_ms ∨
  (match st.start_time with
    | some t => fi.now - t
    | none => 0) ≥ cfg.max_utterance_seconds

/-- Decidability of the Recording stop condition. -/
instance (cfg : SpeechCfg) (frame_ms : ℚ) (st : LoopState) (fi : FrameInput) :
    Decidable (recordingEndCond cfg frame_ms st fi) := by
  unfold recordingEndCond
  infer_instance

/-- Embedding of one iteration of the frame loop body, state-machine part
(src/main.rs lines 316-476).  The ASR call and the transcript handling that
follow an utterance end have no influence on the loop state and are modelled
by the `asrAttempt` effect carrying the buffered samples. -/
def listenStep (cfg : SpeechCfg) (frame_ms : ℚ) (st : LoopState)
    (fi : FrameInput) : LoopState × List ListenEffect :=
  match st.state with
  | .Idle =>
    if fi.wake then (armedReset, [ListenEffect.notifyListening])
    else (st, [])
  | .Listening =>
    if fi.wake then (armedReset, [ListenEffect.notifyListening])
    else
      let speech := fi.vadSpeech || fi.rmsAtLeastThreshold
      if speech then
        (⟨ListenState.Recording, fi.frame, 0, some fi.now, true⟩, [])
      else (st, [])
  | .Recording =>
    let samples2 := st.samples ++ fi.frame
    let silence2 :=
      if !fi.vadSpeech && !fi.rmsAtLeastThreshold then st.silence_ms + frame_ms
      else 0
    if recordingEndCond cfg frame_ms st fi then
      let effs :=
        if st.saw_post_wake_speech && !samples2.isEmpty then
          [ListenEffect.asrAttempt samples2]
        else [ListenEffect.asrSkipped]
      (idleReset, effs)
    else
      ({ st with samples := samples2, silence_ms := silence2 }, [])

/-- Test whether one effect hands the routed intent to the Executor as a
command: immediate execution or an opened confirmation. -/
def isCommandEffect : Effect → Bool
  | .executeIntent _ => true
  | .awaitingConfirmation _ => true
  | _ => false

/-- Command-acceptance predicate over an effect list: the transcript was
handed to the Executor as a command, either executing immediately or opening
a confirmation. -/
def commandAccepted (effs : List Effect) : Prop :=
  ∃ e ∈ effs, isCommandEffect e = true

/-- Prompts of the LLM-provider calls recorded in an effect list, in order. -/
def llmPrompts (effs : List Effect) : List String :=
  effs.filterMap fun e =>
    match e with
    | .llmCall p => some p
    | _ => none

/-- Speech dispatches recorded in an effect list, in order. -/
def speakCalls (effs : List Effect) : List (String × SpeechOutputCfg) :=
  effs.filterMap fun e =>
    match e with
    | .speak t c => some (t, c)
    | _ => none

/-- Concrete LLM stub returning a fixed non-sentinel answer, for witnesses. -/
def llmW : String → Except String String := fun _ => Except.ok " some answer "

/-- Concrete LLM stub returning a fixed known answer, for witnesses. -/
def llmKnownW : String → Except String String :=
  fun _ => Except.ok " The capital of France is Paris. "

/-- Concrete LLM stub returning the exact sentinel, for witnesses. -/
def llmSentinelW : String → Except String String :=
  fun _ => Except.ok KNOWLEDGE_CHECK_SENTINEL

/-- Concrete routed intent with no matched command, for witnesses. -/
def routedNoneW : IntentResult := ⟨none, [], none, false, false⟩

/-- Concrete pending confirmation created at time 0 with a 30 second
timeout, for witnesses. -/
def pendingW : PendingConfirmation := ⟨"req-1", routedNoneW, 0, 30⟩

/-- Executor holding one pending confirmation, for witnesses. -/
def execPendingW : Executor := ⟨some pendingW, ⟨30, false⟩⟩

/-- Executor with nothing pending, for witnesses. -/
def execIdleW : Executor := ⟨none, ⟨30, false⟩⟩

/-- Concrete configuration, for witnesses. -/
def cfgW : Config := ⟨⟨4/5⟩, ⟨true, 8000, none⟩, ⟨true, 4000⟩, ⟨false⟩,
  ⟨3, 1/100, 900, 12⟩, ⟨30, false⟩⟩

/-- Concrete search configuration with search enabled, for witnesses. -/
def scfgW : SearchCfg := ⟨true, 8000, none⟩

/-- Concrete speech-output configuration with speech disabled, for
witnesses. -/
def ttsW : SpeechOutputCfg := ⟨false⟩

/-- Concrete Tavily response with one result, for witnesses. -/
def tavW : Except String (List TavilyItem) :=
  Except.ok [⟨"Result title", "http://example.org", "Result content"⟩]

/-- Concrete speech configuration, for witnesses. -/
def speechCfgW : SpeechCfg := ⟨3, 1/100, 900, 12⟩

/-- Concrete loop state in Recording with accumulated silence, for
witnesses. -/
def stRecordingW : LoopState := ⟨ListenState.Recording, [1, 2], 880, some 0, true⟩

/-- Concrete loop state in Idle, for witnesses. -/
def stIdleW : LoopState := ⟨ListenState.Idle, [], 0, none, false⟩

/-- Concrete silent frame input, for witnesses. -/
def frameSilW : FrameInput := ⟨false, false, false, [3, 4], 5⟩

/-- Concrete frame input on which the wake word fires, for witnesses. -/
def frameWakeW : FrameInput := ⟨true, false, false, [3, 4], 5⟩

/-- Helper: the knowledge-check stage always performs exactly one LLM call,
with the knowledge-check prompt. -/
theorem awlik_effects (query : String) (llm : String → Except String String) :
    (answer_with_llm_if_known query llm).2 = [Effect.llmCall (knowledgePrompt query)] := by
  unfold answer_with_llm_if_known
  cases h : llm (knowledgePrompt query) <;> simp [h] <;> split_ifs <;> rfl

/-- Helper: the escalation stage emits the Tavily call, followed by the
compose LLM call exactly when a facts block was built. -/
theorem awt_effects_cases (q : String) (scfg : SearchCfg)
    (llm : String → Except String String) (tav : Except String (List TavilyItem)) :
    (answer_with_tavily q scfg llm tav).2 = [Effect.tavilyCall q] ∨
    ∃ f, tavilyFactsText (tav.toOption.getD []) = Except.ok f ∧
      (answer_with_tavily q scfg llm tav).2 =
        [Effect.tavilyCall q, Effect.llmCall (composePrompt q f)] := by
  unfold answer_with_tavily tavily_search
  rcases tav with e | rs
  · left; simp
  · rcases h : tavilyFactsText rs with e2 | f
    · left; simp [h]
    · right; exact ⟨f, by simpa using h, by simp [h]⟩

/-- Helper: effect list of the escalation stage when Tavily answers and the
facts block builds. -/
theorem awt_effects_ok (q : String) (scfg : SearchCfg)
    (llm : String → Except String String) (rs : List TavilyItem) (f : String)
    (hfacts : tavilyFactsText rs = .ok f) :
    (answer_with_tavily q scfg llm (.ok rs)).2 =
      [Effect.tavilyCall q, Effect.llmCall (composePrompt q f)] := by
  unfold answer_with_tavily tavily_search
  simp [hfacts]

set_option maxRecDepth 20000 in
/-- Helper: the compose prompt is never the knowledge-check prompt; their
leading literals already differ. -/
theorem prompts_ne (q f : String) : composePrompt q f ≠ knowledgePrompt q := by
  intro h
  have h2 := congrArg (fun s => s.data.head?) h
  simp only [composePrompt, knowledgePrompt, String.data_append, List.append_assoc,
    List.head?_append] at h2
  rw [show ("User question:\n".data.head?) = some 'U' from by decide,
    show ("You are an AI assistant named Bumblebee, running on arch linux (just like siri for mac).\n\nAnswer the user ONLY IF you are certain the answer is:\n- Not time-sensitive\n- Not dependent on real-time data\n- Not dependent on events after your training cutoff\n- Not dependent on current news, stock prices, sports results, weather, or recent events\n\nIf you can answer confidently from static knowledge, give the answer.\n\nIf you cannot answer confidently, respond with EXACTLY this sentence and nothing else:\n\n\"".data.head?) = some 'Y' from by decide] at h2
  simp [Option.or] at h2

/-- C1: while a PendingConfirmation exists, a transcript whose
`normalize_short` form is not one of the six fixed confirmation tokens is
ignored by `handle_transcript`: no state change and no effect at all
(src/main.rs lines 49-57). -/
theorem handle_transcript_pending_nonconfirmation_ignored
    (text : String) (cfg : Config) (exec : Executor) (routed : IntentResult)
    (llm : String → Except String String) (now : ℚ) (freshId : String)
    (p : PendingConfirmation) (hp : exec.pending = some p)
    (hn : normalize_short text ∉
      (["yes", "confirm", "do it", "no", "cancel", "stop"] : List String)) :
    handle_transcript text cfg exec routed llm now freshId = (exec, []) := by
  have hps : exec.has_pending = true := by simp [Executor.has_pending, hp]
  simp only [List.mem_cons, List.mem_singleton, not_or, List.not_mem_nil,
    not_false_iff, and_true] at hn
  obtain ⟨h1, h2, h3, h4, h5, h6⟩ := hn
  simp [handle_transcript, hps, h1, h2, h3, h4, h5, h6]

/-- Witness for C1 at the transcript "Banana!" with a pending
confirmation. -/
theorem handle_transcript_pending_nonconfirmation_ignored_witness :
    execPendingW.pending = some pendingW ∧
    normalize_short "Banana!" ∉
      (["yes", "confirm", "do it", "no", "cancel", "stop"] : List String) ∧
    handle_transcript "Banana!" cfgW execPendingW routedNoneW llmW 5 "req-2" =
      (execPendingW, []) :=
  ⟨rfl, by decide,
    handle_transcript_pending_nonconfirmation_ignored "Banana!" cfgW execPendingW
      routedNoneW llmW 5 "req-2" pendingW rfl (by decide)⟩

/-- C2: the Executor holds at most one PendingConfirmation at any instant,
and a tick at a time `now` with `now - created_at ≥ timeout` always clears
the pending state without executing the stored intent (spec section 4.3;
ticked every frame at src/main.rs line 308). -/
theorem executor_at_most_one_pending_and_tick_expires :
    (∀ e : Executor, pendingCount e ≤ 1) ∧
    (∀ (e : Executor) (p : PendingConfirmation) (now : ℚ),
      e.pending = some p → now - p.created_at ≥ p.timeout →
      (e.handle_tick now).1.pending = none ∧
      ∀ i, Effect.executeIntent i ∉ (e.handle_tick now).2) := by
  constructor
  · intro e; cases h : e.pending <;> simp [pendingCount, h]
  · intro e p now hp ht
    simp [Executor.handle_tick, hp, ht]

/-- Witness for C2: an executor pending since time 0 with timeout 30,
ticked at time 40. -/
theorem executor_at_most_one_pending_and_tick_expires_witness :
    (execPendingW.handle_tick 40).1.pending = none ∧
    ∀ i, Effect.executeIntent i ∉ (execPendingW.handle_tick 40).2 :=
  executor_at_most_one_pending_and_tick_expires.2 execPendingW pendingW 40 rfl
    (by norm_num [pendingW])

/-- C3: with no PendingConfirmation, the routed intent is accepted as a
command exactly when a command id was matched and the deterministic score
(0 when absent) is at least the configured threshold; when that gate fails
the transcript is handed to the question-routing path and no command effect
is produced, whatever the (LLM-fallback influenced) routed intent contains
(src/main.rs lines 64-93). -/
theorem handle_transcript_deterministic_gate
    (text : String) (cfg : Config) (exec : Executor) (routed : IntentResult)
    (llm : String → Except String String) (now : ℚ) (freshId : String)
    (hnp : exec.pending = none) :
    (commandAccepted (handle_transcript text cfg exec routed llm now freshId).2 ↔
      routed.command_id.isSome = true ∧
        routed.deterministic_score.getD 0 ≥ cfg.intent.deterministic_threshold) ∧
    (¬(routed.command_id.isSome = true ∧
        routed.deterministic_score.getD 0 ≥ cfg.intent.deterministic_threshold) →
      handle_transcript text cfg exec routed llm now freshId =
        (exec, question_route cfg text llm) ∧
      ¬ commandAccepted (handle_transcript text cfg exec routed llm now freshId).2) := by
  have hps : exec.has_pending = false := by simp [Executor.has_pending, hnp]
  have hqr : ¬ commandAccepted (question_route cfg text llm) := by
    rintro ⟨e, he, hce⟩
    simp only [question_route, notify_text] at he
    split_ifs at he <;>
      simp only [List.mem_append, List.mem_singleton, List.mem_cons,
        List.not_mem_nil, or_false, false_or, or_assoc] at he <;>
      first
        | exact he.elim
        | (rcases he with rfl | rfl | rfl <;> simp [isCommandEffect] at hce)
  by_cases hgate : routed.command_id.isSome = true ∧
      routed.deterministic_score.getD 0 ≥ cfg.intent.deterministic_threshold
  · have hgb : (routed.command_id.isSome &&
        decide (routed.deterministic_score.getD 0 ≥ cfg.intent.deterministic_threshold)) = true := by
      simp [hgate.1, decide_eq_true hgate.2]
    have heq : handle_transcript text cfg exec routed llm now freshId =
        if routed.dangerous then
          exec.handle_intent { routed with requires_confirmation := true } now freshId
        else exec.handle_intent routed now freshId := by
      unfold handle_transcript
      rw [hps]
      simp only [Bool.false_eq_true, if_false]
      rw [hgb]
      simp
    refine ⟨⟨fun _ => hgate, fun _ => ?_⟩, fun h => absurd hgate h⟩
    rw [heq]
    by_cases hd : routed.dangerous = true
    · refine ⟨Effect.awaitingConfirmation freshId, ?_, rfl⟩
      simp [hd, Executor.handle_intent]
    · have hd2 : routed.dangerous = false := by
        revert hd; cases routed.dangerous <;> simp
      refine ⟨Effect.executeIntent routed, ?_, rfl⟩
      simp [hd2, Executor.handle_intent]
  · have hgb : (routed.command_id.isSome &&
        decide (routed.deterministic_score.getD 0 ≥ cfg.intent.deterministic_threshold)) = false := by
      by_cases h : routed.command_id.isSome = true
      · simp only [h, Bool.true_and]
        apply decide_eq_false
        intro hge
        exact hgate ⟨h, hge⟩
      · have h2 : routed.command_id.isSome = false := by
          revert h; cases routed.command_id.isSome <;> simp
        simp [h2]
    have heq : handle_transcript text cfg exec routed llm now freshId =
        (exec, question_route cfg text llm) := by
      unfold handle_transcript
      rw [hps]
      simp only [Bool.false_eq_true, if_false]
      rw [hgb]
      simp
    refine ⟨?_, fun _ => ⟨heq, ?_⟩⟩
    · rw [heq]
      exact ⟨fun hca => absurd hca hqr, fun hg => absurd hg hgate⟩
    · rw [heq]
      exact hqr

/-- Witness for C3 at a transcript whose routed intent matched no command. -/
theorem handle_transcript_deterministic_gate_witness :
    (commandAccepted (handle_transcript "hello there" cfgW execIdleW routedNoneW llmW 5 "req-2").2 ↔
      routedNoneW.command_id.isSome = true ∧
        routedNoneW.deterministic_score.getD 0 ≥ cfgW.intent.deterministic_threshold) ∧
    (¬(routedNoneW.command_id.isSome = true ∧
        routedNoneW.deterministic_score.getD 0 ≥ cfgW.intent.deterministic_threshold) →
      handle_transcript "hello there" cfgW execIdleW routedNoneW llmW 5 "req-2" =
        (execIdleW, question_route cfgW "hello there" llmW) ∧
      ¬ commandAccepted
        (handle_transcript "hello there" cfgW execIdleW routedNoneW llmW 5 "req-2").2) :=
  handle_transcript_deterministic_gate "hello there" cfgW execIdleW routedNoneW
    llmW 5 "req-2" rfl

/-- C4: the knowledge-check stage yields Unknown exactly when the trimmed
reply is the exact sentinel or empty, and any other reply yields Known
carrying the trimmed reply text (src/search.rs lines 63-85). -/
theorem answer_with_llm_if_known_sentinel_cases
    (query out : String) (llm : String → Except String String)
    (hllm : llm (knowledgePrompt query) = .ok out) :
    ((answer_with_llm_if_known query llm).1 = .ok .Unknown ↔
      (rustTrim out = KNOWLEDGE_CHECK_SENTINEL ∨ rustTrim out = "")) ∧
    (rustTrim out ≠ KNOWLEDGE_CHECK_SENTINEL → rustTrim out ≠ "" →
      (answer_with_llm_if_known query llm).1 = .ok (.Known (rustTrim out))) := by
  by_cases hs : rustTrim out = KNOWLEDGE_CHECK_SENTINEL
  · simp [answer_with_llm_if_known, hllm, hs]
  · by_cases he : rustTrim out = ""
    · simp [answer_with_llm_if_known, hllm, hs, he]
    · simp [answer_with_llm_if_known, hllm, hs, he]

/-- Witness for C4 at a reply that is neither the sentinel nor empty. -/
theorem answer_with_llm_if_known_sentinel_cases_witness :
    llmKnownW (knowledgePrompt "q") = .ok " The capital of France is Paris. " ∧
    (((answer_with_llm_if_known "q" llmKnownW).1 = .ok .Unknown ↔
      (rustTrim " The capital of France is Paris. " = KNOWLEDGE_CHECK_SENTINEL ∨
        rustTrim " The capital of France is Paris. " = "")) ∧
    (rustTrim " The capital of France is Paris. " ≠ KNOWLEDGE_CHECK_SENTINEL →
      rustTrim " The capital of France is Paris. " ≠ "" →
      (answer_with_llm_if_known "q" llmKnownW).1 =
        .ok (.Known (rustTrim " The capital of France is Paris. ")))) :=
  ⟨rfl, answer_with_llm_if_known_sentinel_cases "q"
    " The capital of France is Paris. " llmKnownW rfl⟩

/-- C5: with search enabled and a failed connectivity probe, the workflow
presents exactly the fixed offline message (when the UI is enabled) and
performs no LLM-provider and no web-search-provider call
(src/search.rs lines 127-137, src/net.rs lines 8-11). -/
theorem search_offline_short_circuit
    (question : String) (scfg : SearchCfg) (ui : Bool) (tmo : Nat)
    (tts : SpeechOutputCfg) (llm : String → Except String String)
    (tav : Except String (List TavilyItem)) (hen : scfg.enabled = true) :
    search_and_summarize_async question scfg ui tmo tts llm tav false =
      (if ui then
        [Effect.showAnswer "Btw" "No internet connection. Cannot fetch web results."]
      else []) ∧
    (∀ p, Effect.llmCall p ∉
      search_and_summarize_async question scfg ui tmo tts llm tav false) ∧
    (∀ q, Effect.tavilyCall q ∉
      search_and_summarize_async question scfg ui tmo tts llm tav false) := by
  have he : search_and_summarize_async question scfg ui tmo tts llm tav false =
      (if ui then
        [Effect.showAnswer "Btw" "No internet connection. Cannot fetch web results."]
      else []) := by
    unfold search_and_summarize_async
    rw [hen]
    cases ui <;> simp [notify_answer] <;> decide
  refine ⟨he, ?_, ?_⟩ <;> intro x <;> rw [he] <;> cases ui <;> simp

/-- Witness for C5 at a concrete question with the UI enabled. -/
theorem search_offline_short_circuit_witness :
    search_and_summarize_async "who won the race" scfgW true 4000 ttsW llmW tavW false =
      (if true then
        [Effect.showAnswer "Btw" "No internet connection. Cannot fetch web results."]
      else []) ∧
    (∀ p, Effect.llmCall p ∉
      search_and_summarize_async "who won the race" scfgW true 4000 ttsW llmW tavW false) ∧
    (∀ q, Effect.tavilyCall q ∉
      search_and_summarize_async "who won the race" scfgW true 4000 ttsW llmW tavW false) :=
  search_offline_short_circuit "who won the race" scfgW true 4000 ttsW llmW tavW rfl

/-- C6: in an online run, the web-search provider is called exactly when the
knowledge-check stage returned Unknown; and when it returns results whose
facts block builds, the LLM calls are exactly the knowledge-check call
followed by the compose call carrying the facts block — never the
question-only knowledge-check prompt again (src/search.rs lines 87-102 and
139-146). -/
theorem tavily_called_only_on_unknown
    (question : String) (scfg : SearchCfg) (ui : Bool) (tmo : Nat)
    (tts : SpeechOutputCfg) (llm : String → Except String String)
    (tav : Except String (List TavilyItem)) (hen : scfg.enabled = true) :
    (Effect.tavilyCall question ∈
        search_and_summarize_async question scfg ui tmo tts llm tav true ↔
      (answer_with_llm_if_known question llm).1 = .ok .Unknown) ∧
    (∀ rs f, (answer_with_llm_if_known question llm).1 = .ok .Unknown →
      tav = .ok rs → tavilyFactsText rs = .ok f →
      llmPrompts (search_and_summarize_async question scfg ui tmo tts llm tav true) =
        [knowledgePrompt question, composePrompt question f] ∧
      composePrompt question f ≠ knowledgePrompt question) := by
  constructor
  · unfold search_and_summarize_async
    rw [hen]
    simp only [Bool.not_true, Bool.false_eq_true, if_false, Bool.not_false, if_true]
    rcases h1 : (answer_with_llm_if_known question llm).1 with e | k
    · cases ui <;> simp [h1, awlik_effects, notify_answer]
    · cases k with
      | Known ans =>
        cases ui <;> simp [h1, awlik_effects, notify_answer]
      | Unknown =>
        rcases h2 : (answer_with_tavily question scfg llm tav).1 with e2 | ans2 <;>
          rcases awt_effects_cases question scfg llm tav with h3 | ⟨f, hf, h3⟩ <;>
            cases ui <;>
              simp [h1, h2, h3, awlik_effects, notify_answer,
                notify_answer_with_open_in_browser]
  · intro rs f hU htav hfacts
    refine ⟨?_, prompts_ne question f⟩
    subst htav
    have h3 := awt_effects_ok question scfg llm rs f hfacts
    unfold search_and_summarize_async
    rw [hen]
    simp only [Bool.not_true, Bool.false_eq_true, if_false, Bool.not_false, if_true]
    rcases h2 : (answer_with_tavily question scfg llm (.ok rs)).1 with e2 | ans2 <;>
      cases ui <;>
        simp [hU, h2, h3, awlik_effects, llmPrompts, List.filterMap_append,
          notify_answer, notify_answer_with_open_in_browser]

/-- Witness for C6: a knowledge check that returns the exact sentinel, one
Tavily result, a concrete facts block. -/
theorem tavily_called_only_on_unknown_witness :
    (Effect.tavilyCall "who won the race" ∈
        search_and_summarize_async "who won the race" scfgW true 4000 ttsW
          llmSentinelW tavW true ↔
      (answer_with_llm_if_known "who won the race" llmSentinelW).1 = .ok .Unknown) ∧
    (∀ rs f,
      (answer_with_llm_if_known "who won the race" llmSentinelW).1 = .ok .Unknown →
      tavW = .ok rs → tavilyFactsText rs = .ok f →
      llmPrompts (search_and_summarize_async "who won the race" scfgW true 4000 ttsW
          llmSentinelW tavW true) =
        [knowledgePrompt "who won the race", composePrompt "who won the race" f] ∧
      composePrompt "who won the race" f ≠ knowledgePrompt "who won the race") :=
  tavily_called_only_on_unknown "who won the race" scfgW true 4000 ttsW
    llmSentinelW tavW rfl

/-- C7: in Recording, the utterance ends exactly when the accumulated
consecutive silence reaches the configured silence duration or the elapsed
time since recording start reaches the configured maximum utterance
duration, whichever first becomes true on a frame; on every end the sample
buffer is cleared and the state returns to Idle, independent of the ASR
outcome (src/main.rs lines 394-475). -/
theorem recording_stop_condition
    (cfg : SpeechCfg) (frame_ms : ℚ) (st : LoopState) (fi : FrameInput)
    (hrec : st.state = ListenState.Recording) :
    ((listenStep cfg frame_ms st fi).1.state = ListenState.Idle ↔
      recordingEndCond cfg frame_ms st fi) ∧
    (recordingEndCond cfg frame_ms st fi →
      (listenStep cfg frame_ms st fi).1 = idleReset) ∧
    (¬recordingEndCond cfg frame_ms st fi →
      (listenStep cfg frame_ms st fi).1.state = ListenState.Recording ∧
      (listenStep cfg frame_ms st fi).1.samples = st.samples ++ fi.frame) := by
  by_cases hc : recordingEndCond cfg frame_ms st fi
  · simp [listenStep, hrec, hc, idleReset]
  · simp [listenStep, hrec, hc]

/-- Witness for C7: a recording whose silence accumulator crosses the
configured 900 ms threshold on the incoming frame. -/
theorem recording_stop_condition_witness :
    ((listenStep speechCfgW 32 stRecordingW frameSilW).1.state = ListenState.Idle ↔
      recordingEndCond speechCfgW 32 stRecordingW frameSilW) ∧
    (recordingEndCond speechCfgW 32 stRecordingW frameSilW →
      (listenStep speechCfgW 32 stRecordingW frameSilW).1 = idleReset) ∧
    (¬recordingEndCond speechCfgW 32 stRecordingW frameSilW →
      (listenStep speechCfgW 32 stRecordingW frameSilW).1.state = ListenState.Recording ∧
      (listenStep speechCfgW 32 stRecordingW frameSilW).1.samples =
        stRecordingW.samples ++ frameSilW.frame) :=
  recording_stop_condition speechCfgW 32 stRecordingW frameSilW rfl

/-- C8: on every frame on which wake-word detection fires in Idle or again
in Listening, the loop state becomes the armed Listening state with an empty
sample buffer and cleared derived flags — the triggering frame is never
appended to the utterance buffer (src/main.rs lines 317-334 and 340-349). -/
theorem wake_detection_clears_buffer
    (cfg : SpeechCfg) (frame_ms : ℚ) (st : LoopState) (fi : FrameInput)
    (hw : fi.wake = true)
    (hst : st.state = ListenState.Idle ∨ st.state = ListenState.Listening) :
    (listenStep cfg frame_ms st fi).1 = armedReset := by
  rcases hst with h | h <;> simp [listenStep, h, hw]

/-- Witness for C8: a wake detection in Idle with a nonempty frame. -/
theorem wake_detection_clears_buffer_witness :
    (listenStep speechCfgW 32 stIdleW frameWakeW).1 = armedReset :=
  wake_detection_clears_buffer speechCfgW 32 stIdleW frameWakeW rfl (Or.inl rfl)

/-- C9: every online run of the workflow dispatches exactly one text to
text-to-speech and does so with the speech-output configuration whose
enabled flag is forced to true, whatever the configured value; the offline
short-circuit dispatches no speech (src/search.rs lines 148-185). -/
theorem presentation_speech_forced_enabled
    (question : String) (scfg : SearchCfg) (ui : Bool) (tmo : Nat)
    (tts : SpeechOutputCfg) (llm : String → Except String String)
    (tav : Except String (List TavilyItem)) (hen : scfg.enabled = true) :
    (∃ t, speakCalls (search_and_summarize_async question scfg ui tmo tts llm tav true) =
        [(t, { tts with enabled := true })]) ∧
    speakCalls (search_and_summarize_async question scfg ui tmo tts llm tav false) = [] := by
  constructor
  · unfold search_and_summarize_async
    rw [hen]
    simp only [Bool.not_true, Bool.false_eq_true, if_false, Bool.not_false, if_true]
    rcases h1 : (answer_with_llm_if_known question llm).1 with e | k
    · refine ⟨"I couldn’t find reliable information.", ?_⟩
      cases ui <;>
        simp [h1, speakCalls, List.filterMap_append, awlik_effects, notify_answer]
    · cases k with
      | Known ans =>
        refine ⟨ans, ?_⟩
        cases ui <;>
          simp [h1, speakCalls, List.filterMap_append, awlik_effects, notify_answer]
      | Unknown =>
        rcases h2 : (answer_with_tavily question scfg llm tav).1 with e2 | ans2
        · refine ⟨"I couldn’t find reliable information.", ?_⟩
          rcases awt_effects_cases question scfg llm tav with h3 | ⟨f, hf, h3⟩ <;>
            cases ui <;>
              simp [h1, h2, h3, speakCalls, List.filterMap_append, awlik_effects,
                notify_answer]
        · refine ⟨ans2, ?_⟩
          rcases awt_effects_cases question scfg llm tav with h3 | ⟨f, hf, h3⟩ <;>
            cases ui <;>
              simp [h1, h2, h3, speakCalls, List.filterMap_append, awlik_effects,
                notify_answer, notify_answer_with_open_in_browser]
  · unfold search_and_summarize_async
    rw [hen]
    cases ui <;> simp [notify_answer, speakCalls]

/-- Witness for C9: an online run with speech output configured off still
speaks with the enabled flag forced on, and the offline run is silent. -/
theorem presentation_speech_forced_enabled_witness :
    (∃ t, speakCalls (search_and_summarize_async "who won the race" scfgW true 4000
        ttsW llmW tavW true) = [(t, { ttsW with enabled := true })]) ∧
    speakCalls (search_and_summarize_async "who won the race" scfgW true 4000
        ttsW llmW tavW false) = [] :=
  presentation_speech_forced_enabled "who won the race" scfgW true 4000 ttsW
    llmW tavW rfl

/-- C10: with nothing pending, a failed deterministic gate and a transcript
that trims to empty, `handle_transcript` returns with no effect at all: no
question dispatch, no LLM call, no shown answer (src/main.rs lines 88-93). -/
theorem empty_transcript_dropped
    (text : String) (cfg : Config) (exec : Executor) (routed : IntentResult)
    (llm : String → Except String String) (now : ℚ) (freshId : String)
    (hnp : exec.pending = none)
    (hgate : ¬(routed.command_id.isSome = true ∧
      routed.deterministic_score.getD 0 ≥ cfg.intent.deterministic_threshold))
    (hempty : rustTrim text = "") :
    handle_transcript text cfg exec routed llm now freshId = (exec, []) := by
  have hps : exec.has_pending = false := by simp [Executor.has_pending, hnp]
  have hgb : (routed.command_id.isSome &&
      decide (routed.deterministic_score.getD 0 ≥ cfg.intent.deterministic_threshold)) = false := by
    by_cases h : routed.command_id.isSome = true
    · simp only [h, Bool.true_and]
      apply decide_eq_false
      intro hge
      exact hgate ⟨h, hge⟩
    · have h2 : routed.command_id.isSome = false := by
        revert h; cases routed.command_id.isSome <;> simp
      simp [h2]
  unfold handle_transcript
  rw [hps]
  simp only [Bool.false_eq_true, if_false]
  rw [hgb]
  simp [question_route, hempty]

/-- Witness for C10: a whitespace-only transcript with no pending
confirmation and no matched command. -/
theorem empty_transcript_dropped_witness :
    execIdleW.pending = none ∧
    ¬(routedNoneW.command_id.isSome = true ∧
      routedNoneW.deterministic_score.getD 0 ≥ cfgW.intent.deterministic_threshold) ∧
    rustTrim "   " = "" ∧
    handle_transcript "   " cfgW execIdleW routedNoneW llmW 5 "req-3" = (execIdleW, []) :=
  ⟨rfl, by decide, by decide,
    empty_transcript_dropped "   " cfgW execIdleW routedNoneW llmW 5 "req-3" rfl
      (by decide) (by decide)⟩
